import Mathlib

/-!
# Verification of the Healthcare-Translation request relay (`src/server.js`)

A shallow embedding of the Express server in `src/server.js`: an HTTP relay
exposing `/api/health`, `/api/translate` and `/api/models` behind a CORS gate,
security headers, a JSON body parser and a rate limiter, with a fallback error
middleware.  JavaScript values appearing in JSON bodies are embedded as `JVal`,
JS truthiness as `truthy`, and the upstream Groq client as an explicit function
parameter so that calls to it can be observed.  Route handlers are pure
functions from the parsed request to an HTTP response together with the list of
upstream calls they perform; the middleware pipeline is a function from
rate-limiter state and request to an outcome.
-/

/-- A JavaScript/JSON value as it can appear in a parsed request body or in a
JSON response produced by `res.json`. -/
inductive JVal where
  | null : JVal
  | bool (b : Bool) : JVal
  | num (n : Int) : JVal
  | str (s : String) : JVal
  | arr (xs : List JVal) : JVal
  | obj (fields : List (String × JVal)) : JVal
deriving Repr

/-- JS truthiness of a possibly-absent value (`undefined` is `none`):
`undefined`, `null`, `false`, `0` and `""` are falsy, everything else truthy.
This is the test performed by `if (!text || !sourceLang || !targetLang)` in
`src/server.js` line 85 and by `!origin` in the CORS callback. -/
def truthy : Option JVal → Bool
  | none => false
  | some JVal.null => false
  | some (JVal.bool b) => b
  | some (JVal.num n) => n != 0
  | some (JVal.str s) => s != ""
  | some (JVal.arr _) => true
  | some (JVal.obj _) => true

mutual

/-- JS string coercion `String(v)` / template-literal interpolation of a value:
strings verbatim, numbers and booleans printed, `null` prints "null", arrays
join their elements with commas (null elements print empty), objects print
"[object Object]". -/
def jvalToString : JVal → String
  | JVal.str s => s
  | JVal.num n => toString n
  | JVal.bool b => if b then "true" else "false"
  | JVal.null => "null"
  | JVal.arr xs => arrElemsToString xs
  | JVal.obj _ => "[object Object]"

/-- JS `Array.prototype.toString`: elements joined by ",", with `null` elements
rendered as the empty string. -/
def arrElemsToString : List JVal → String
  | [] => ""
  | [JVal.null] => ""
  | [v] => jvalToString v
  | JVal.null :: vs => "," ++ arrElemsToString vs
  | v :: vs => jvalToString v ++ "," ++ arrElemsToString vs

end

/-- Field lookup in an embedded JSON object: the value of the first binding of
key `k`, or `none` when the object has no such key (or `j` is not an object). -/
def objGet (j : JVal) (k : String) : Option JVal :=
  match j with
  | JVal.obj fields => (fields.find? (fun p => p.1 == k)).map (fun p => p.2)
  | _ => none

/-- Substring containment on character lists: JavaScript
`String.prototype.includes`. -/
def charsIncludes : List Char → List Char → Bool
  | s, pat =>
    if pat.isPrefixOf s then true
    else
      match s with
      | [] => false
      | _ :: cs => charsIncludes cs pat

/-- JS `s.includes(pat)`. -/
def strIncludes (s pat : String) : Bool :=
  charsIncludes s.data pat.data

/-! ## The language-name table and language resolution (`src/server.js` 62-73, 89-90) -/

/-- The static `languageNames` table of `src/server.js` (lines 62-73). -/
def languageNames : List (String × String) :=
  [("en-US", "English"), ("es", "Spanish"), ("fr", "French"), ("de", "German"),
   ("zh", "Chinese"), ("ar", "Arabic"), ("hi", "Hindi"), ("pt", "Portuguese"),
   ("ru", "Russian"), ("ja", "Japanese")]

/-- JS property read `languageNames[code]`: the value under the key, or absent.
Property keys are compared after string coercion. -/
def lookupLang (code : String) : Option String :=
  (languageNames.find? (fun p => p.1 == code)).map (fun p => p.2)

/-- The resolution `languageNames[lang] || lang`, then string coercion by the template
literal: the display name when the code is in the table (and the name is
truthy, which every table entry is), otherwise the code itself coerced to a
string. -/
def resolveLang (lang : JVal) : String :=
  match lookupLang (jvalToString lang) with
  | some name => if name == "" then jvalToString lang else name
  | none => jvalToString lang

/-! ## The upstream Groq client, embedded as explicit functions -/

/-- One message of a chat-completion request. The `content` of the user
message is the raw `text` value from the request body, hence a `JVal`. -/
structure ChatMessage where
  role : String
  content : JVal
deriving Repr

/-- The argument object passed to `groq.chat.completions.create` in
`src/server.js` lines 92-102. -/
structure GroqRequest where
  messages : List ChatMessage
  model : String
  temperature : ℚ
deriving Repr

/-- The `message` field of a completion choice; its `content` may be absent. -/
structure ChoiceMessage where
  content : Option String
deriving Repr

/-- One element of the upstream response's `choices` array; its `message`
field may be absent. -/
structure Choice where
  message : Option ChoiceMessage
deriving Repr

/-- The upstream chat-completion response shape used by the handler:
`choices`, `model` and `usage`. -/
structure ChatCompletion where
  choices : List Choice
  model : String
  usage : JVal
deriving Repr

/-- The upstream model-listing response shape used by the models route. -/
structure ModelsList where
  data : JVal
deriving Repr

/-- The upstream Groq client: `chat.completions.create` and `models.list`,
each either returning a value or throwing an error with a message
(`Except.error msg` embeds a thrown `Error` whose `.message` is `msg`). -/
structure Upstream where
  chat : GroqRequest → Except String ChatCompletion
  listModels : Except String ModelsList

/-! ## HTTP responses and route handlers -/

/-- An HTTP response: status code and JSON body. -/
structure HttpResponse where
  status : Nat
  body : JVal
deriving Repr

/-- The parsed JSON body of a translate request after destructuring
`const { text, sourceLang, targetLang } = req.body` (absent fields are
`none`, i.e. `undefined`). -/
structure TranslateBody where
  text : Option JVal
  sourceLang : Option JVal
  targetLang : Option JVal
deriving Repr

/-- Route `GET /api/health` (`src/server.js` 76-78): always replies 200 with
`{status: "OK", groqApiConfigured: !!process.env.GROQ_API_KEY}`.  The
environment variable is `none` when unset; `!!` is string truthiness. -/
def healthHandler (groqApiKey : Option String) : HttpResponse :=
  { status := 200,
    body := JVal.obj [("status", JVal.str "OK"),
      ("groqApiConfigured", JVal.bool (truthy ((groqApiKey).map JVal.str)))] }

/-- The system-instruction text built by the template literal in
`src/server.js` line 96. -/
def systemPrompt (sourceLanguage targetLanguage : String) : String :=
  "You are a professional medical translator. Translate from " ++ sourceLanguage ++
    " to " ++ targetLanguage ++ ". Return ONLY the translation."

/-- The body of the success JSON built at `src/server.js` 106-112:
`res.json` drops the `translatedText` key when the value is `undefined`. -/
def translateOkBody (translatedText : Option String) (sourceLang targetLang : JVal)
    (model : String) (usage : JVal) : JVal :=
  JVal.obj
    ((match translatedText with
      | some s => [("translatedText", JVal.str s)]
      | none => []) ++
     [("sourceLang", sourceLang), ("targetLang", targetLang),
      ("model", JVal.str model), ("usage", usage)])

/-- Drop leading whitespace characters. -/
def dropLeadingWs : List Char → List Char
  | [] => []
  | c :: cs => if c.isWhitespace then dropLeadingWs cs else c :: cs

/-- JS `String.prototype.trim`: remove whitespace from both ends. -/
def jsTrim (s : String) : String :=
  String.mk ((dropLeadingWs (dropLeadingWs s.data).reverse).reverse)

/-- Extraction `chatCompletion.choices[0]?.message?.content?.trim()`
(`src/server.js` line 104): optional chaining over the upstream shape, with
trailing trim; absent at any step yields `undefined`. -/
def extractTranslatedText (c : ChatCompletion) : Option String :=
  ((c.choices.head?.bind Choice.message).bind ChoiceMessage.content).map jsTrim

/-- Route `POST /api/translate` (`src/server.js` 81-119).  Returns the response
together with the list of upstream chat-completion calls performed (in order),
so that "no upstream call" is observable. -/
def translateHandler (chat : GroqRequest → Except String ChatCompletion)
    (req : TranslateBody) : HttpResponse × List GroqRequest :=
  if !truthy req.text || !truthy req.sourceLang || !truthy req.targetLang then
    ({ status := 400, body := JVal.obj [("error", JVal.str "Missing required fields")] }, [])
  else
    -- in this branch every field is truthy, hence present; the defaults are dead
    let text := req.text.getD JVal.null
    let sourceLang := req.sourceLang.getD JVal.null
    let targetLang := req.targetLang.getD JVal.null
    let sourceLanguage := resolveLang sourceLang
    let targetLanguage := resolveLang targetLang
    let greq : GroqRequest :=
      { messages :=
          [{ role := "system", content := JVal.str (systemPrompt sourceLanguage targetLanguage) },
           { role := "user", content := text }],
        model := "llama-3.3-70b-versatile",
        temperature := 3 / 10 }
    match chat greq with
    | Except.ok chatCompletion =>
      ({ status := 200,
         body := translateOkBody (extractTranslatedText chatCompletion)
           sourceLang targetLang chatCompletion.model chatCompletion.usage }, [greq])
    | Except.error msg =>
      ({ status := 500,
         body := JVal.obj [("error", JVal.str "Translation failed"),
           ("details", JVal.str msg)] }, [greq])

/-- Route `GET /api/models` (`src/server.js` 122-129): on success
`{models: models.data}`, on a thrown error a 500 with
`{error: error.message}`. -/
def modelsHandler (listModels : Except String ModelsList) : HttpResponse :=
  match listModels with
  | Except.ok models => { status := 200, body := JVal.obj [("models", models.data)] }
  | Except.error msg => { status := 500, body := JVal.obj [("error", JVal.str msg)] }

/-- The fallback error-handling middleware (`src/server.js` 132-138), keyed on
the error's message. -/
def errorMiddleware (message : String) : HttpResponse :=
  if message == "Not allowed by CORS" then
    { status := 403, body := JVal.obj [("error", JVal.str "CORS Error: Origin not allowed")] }
  else
    { status := 500, body := JVal.obj [("error", JVal.str "Internal Server Error")] }

/-! ## The CORS gate (`src/server.js` 19-39) -/

/-- The decision of the CORS `origin` callback: the `Origin` request header is
either absent (`none`, non-browser clients) or a string; the callback allows
when `!origin || origin.includes("localhost") || origin.includes("127.0.0.1")`
and otherwise fails with `new Error("Not allowed by CORS")`.  Note `!origin`
is truthiness, so the empty string is also allowed. -/
def corsOriginAllowed (origin : Option String) : Bool :=
  match origin with
  | none => true
  | some o => o == "" || strIncludes o "localhost" || strIncludes o "127.0.0.1"

/-! ## The rate limiter (`src/server.js` 53-58)

`src/server.js` only configures the `express-rate-limit` middleware
(`windowMs`, `max`, `message`); the counting behaviour itself lives in the
library.  It is modelled here from the spec's contract (section 4.4). -/

/-- Constant `windowMs: 15 * 60 * 1000` (`src/server.js` line 54). -/
def windowMs : Nat := 15 * 60 * 1000

/-- Constant `max: 100` (`src/server.js` line 55). -/
def maxRequests : Nat := 100

/-- The fixed JSON rejection body configured at `src/server.js` line 56. -/
def rateLimitMessage : JVal :=
  JVal.obj [("error", JVal.str "Too many requests, please try again later.")]

/-- Rate-limiter store: per client identity, the start time of the current
window (milliseconds) and the number of hits counted in it. -/
def RLState : Type := String → Option (Nat × Nat)

/-- The store in which no client has been seen. -/
def RLState.empty : RLState := fun _ => none

/-- Modelled from the spec: one step of the rate-limiting stage
(`express-rate-limit` is not part of this repository; section 4.4 of the spec
gives its contract: per-client window of `windowMs` ms, up to `maxRequests`
requests allowed, counter reset when the window elapses).  Returns whether the
request may proceed, and the updated store. -/
def rateLimitStep (st : RLState) (client : String) (now : Nat) : Bool × RLState :=
  match st client with
  | some (start, hits) =>
    if now < start + windowMs then
      (hits + 1 ≤ maxRequests, fun c => if c == client then some (start, hits + 1) else st c)
    else
      (true, fun c => if c == client then some (now, 1) else st c)
  | none => (true, fun c => if c == client then some (now, 1) else st c)

/-! ## The middleware pipeline (`src/server.js` 19-58 and route dispatch) -/

/-- The three routes mounted under `/api/` (all requests considered here hit
the `/api/` prefix, so the limiter applies to each). -/
inductive Route where
  | health : Route
  | translate : Route
  | models : Route
deriving Repr, DecidableEq

/-- An incoming HTTP request as the pipeline sees it: declared origin, client
identity (network address) for rate limiting, arrival time in milliseconds,
target route, and parsed translate body (ignored by the other routes). -/
structure Request where
  origin : Option String
  client : String
  time : Nat
  route : Route
  body : TranslateBody

/-- The observable outcome of one request: the response sent, the upstream
chat-completion calls and the number of upstream model-list calls made while
handling it, and the rate-limiter store afterwards. -/
structure Outcome where
  response : HttpResponse
  chatCalls : List GroqRequest
  modelsCalls : Nat
  state : RLState

/-- Route dispatch: the response of the matched handler together with the
upstream calls it makes (`groqApiKey` is `process.env.GROQ_API_KEY`). -/
def routeOutcome (up : Upstream) (groqApiKey : Option String) (req : Request) :
    HttpResponse × List GroqRequest × Nat :=
  match req.route with
  | Route.health => (healthHandler groqApiKey, [], 0)
  | Route.translate =>
    let r := translateHandler up.chat req.body
    (r.1, r.2, 0)
  | Route.models => (modelsHandler up.listModels, [], 1)

/-- The full middleware pipeline of `src/server.js` for one request: the CORS
gate runs first (a denial raises an error that skips every later stage and
lands in the fallback error middleware); then the rate limiter on `/api/`;
only then the route handler. -/
def handle (up : Upstream) (groqApiKey : Option String) (st : RLState) (req : Request) :
    Outcome :=
  if corsOriginAllowed req.origin then
    let step := rateLimitStep st req.client req.time
    if step.1 then
      let r := routeOutcome up groqApiKey req
      { response := r.1, chatCalls := r.2.1, modelsCalls := r.2.2, state := step.2 }
    else
      { response := { status := 429, body := rateLimitMessage },
        chatCalls := [], modelsCalls := 0, state := step.2 }
  else
    { response := errorMiddleware "Not allowed by CORS",
      chatCalls := [], modelsCalls := 0, state := st }

/-- Process a list of requests in order, threading the rate-limiter store;
returns the outcome of each request. -/
def runRequests (up : Upstream) (groqApiKey : Option String) :
    RLState → List Request → List Outcome
  | _, [] => []
  | st, r :: rs =>
    let o := handle up groqApiKey st r
    o :: runRequests up groqApiKey o.state rs

/-- The rate-limiter store after processing a list of requests. -/
def runState (up : Upstream) (groqApiKey : Option String) :
    RLState → List Request → RLState
  | st, [] => st
  | st, r :: rs => runState up groqApiKey (handle up groqApiKey st r).state rs

/-- The observable part of an outcome: response sent, upstream chat calls,
upstream model-list calls (the rate-limiter store is internal). -/
def Outcome.obs (o : Outcome) : HttpResponse × List GroqRequest × Nat :=
  (o.response, o.chatCalls, o.modelsCalls)

/-- The chat-completion request a translate request with truthy fields sends
upstream (read off `src/server.js` 89-102). -/
def validGroqRequest (req : TranslateBody) : GroqRequest :=
  { messages :=
      [{ role := "system",
         content := JVal.str (systemPrompt (resolveLang (req.sourceLang.getD JVal.null))
           (resolveLang (req.targetLang.getD JVal.null))) },
       { role := "user", content := req.text.getD JVal.null }],
    model := "llama-3.3-70b-versatile",
    temperature := 3 / 10 }

/-- A translate body with all three fields present and truthy. -/
def sampleBody : TranslateBody :=
  { text := some (JVal.str "I have chest pain"),
    sourceLang := some (JVal.str "xx"),
    targetLang := some (JVal.str "es") }

/-- An upstream client whose calls all fail with message "boom". -/
def failingUpstream : Upstream :=
  { chat := fun _ => Except.error "boom", listModels := Except.error "boom" }

/-- A fixed client identity for concrete rate-limiter runs. -/
def sampleClient : String := "203.0.113.7"

/-- A first concrete health request (no origin header) at time 0. -/
def sampleReq0 : Request :=
  { origin := none, client := sampleClient, time := 0, route := Route.health,
    body := { text := none, sourceLang := none, targetLang := none } }

/-- A repeated concrete health request from the same client at time 5 ms. -/
def sampleReq1 : Request :=
  { origin := none, client := sampleClient, time := 5, route := Route.health,
    body := { text := none, sourceLang := none, targetLang := none } }

/-- A concrete request from a disallowed browser origin. -/
def sampleForeignReq : Request :=
  { origin := some "https://app.example.com", client := sampleClient, time := 0,
    route := Route.translate, body := sampleBody }

/-! ## Helper lemmas -/

/-- A truthy optional value is present. -/
theorem truthy_eq_some {o : Option JVal} (h : truthy o = true) :
    o = some (o.getD JVal.null) := by
  cases o with
  | none => simp [truthy] at h
  | some v => rfl

/-- The success body always carries `sourceLang` as given. -/
theorem objGet_translateOkBody_sourceLang (tt : Option String) (sl tg : JVal)
    (m : String) (u : JVal) :
    objGet (translateOkBody tt sl tg m u) "sourceLang" = some sl := by
  cases tt <;> rfl

/-- The success body always carries `targetLang` as given. -/
theorem objGet_translateOkBody_targetLang (tt : Option String) (sl tg : JVal)
    (m : String) (u : JVal) :
    objGet (translateOkBody tt sl tg m u) "targetLang" = some tg := by
  cases tt <;> rfl

/-- The success body always carries the upstream `model`. -/
theorem objGet_translateOkBody_model (tt : Option String) (sl tg : JVal)
    (m : String) (u : JVal) :
    objGet (translateOkBody tt sl tg m u) "model" = some (JVal.str m) := by
  cases tt <;> rfl

/-- The success body always carries the upstream `usage`. -/
theorem objGet_translateOkBody_usage (tt : Option String) (sl tg : JVal)
    (m : String) (u : JVal) :
    objGet (translateOkBody tt sl tg m u) "usage" = some u := by
  cases tt <;> rfl

/-- The success body carries `translatedText` exactly when it was extracted. -/
theorem objGet_translateOkBody_translatedText (tt : Option String) (sl tg : JVal)
    (m : String) (u : JVal) :
    objGet (translateOkBody tt sl tg m u) "translatedText" = tt.map JVal.str := by
  cases tt <;> rfl

/-- Evaluation of the translate handler when all three fields are truthy: the
validation passes and exactly one upstream call with `validGroqRequest req` is
made, with the two possible responses. -/
theorem translateHandler_valid_eq (chat : GroqRequest → Except String ChatCompletion)
    (req : TranslateBody) (ht : truthy req.text = true) (hs : truthy req.sourceLang = true)
    (htg : truthy req.targetLang = true) :
    translateHandler chat req =
      match chat (validGroqRequest req) with
      | Except.ok comp =>
        ({ status := 200,
           body := translateOkBody (extractTranslatedText comp) (req.sourceLang.getD JVal.null)
             (req.targetLang.getD JVal.null) comp.model comp.usage }, [validGroqRequest req])
      | Except.error msg =>
        ({ status := 500,
           body := JVal.obj [("error", JVal.str "Translation failed"),
             ("details", JVal.str msg)] }, [validGroqRequest req]) := by
  unfold translateHandler
  rw [ht, hs, htg]
  rfl

/-! ## The claims -/

/-- Claim C1: a translate request whose parsed body is missing `text`,
`sourceLang` or `targetLang` gets a 400 `{"error": "Missing required fields"}`
response and no upstream call is made. -/
theorem translate_missing_field_400 (chat : GroqRequest → Except String ChatCompletion)
    (req : TranslateBody)
    (h : req.text = none ∨ req.sourceLang = none ∨ req.targetLang = none) :
    translateHandler chat req =
      ({ status := 400, body := JVal.obj [("error", JVal.str "Missing required fields")] },
       []) := by
  rcases h with h | h | h <;> simp [translateHandler, h, truthy]

/-- Witness for C1: a body missing `sourceLang`. -/
theorem translate_missing_field_400_witness :
    ({ text := some (JVal.str "I have chest pain"), sourceLang := none,
       targetLang := some (JVal.str "es") } : TranslateBody).sourceLang = none ∧
    translateHandler (fun _ => Except.error "unreachable")
      { text := some (JVal.str "I have chest pain"), sourceLang := none,
        targetLang := some (JVal.str "es") } =
      ({ status := 400, body := JVal.obj [("error", JVal.str "Missing required fields")] },
       []) :=
  ⟨rfl, translate_missing_field_400 _ _ (Or.inr (Or.inl rfl))⟩

/-- Claim C10: the required-field check is a truthiness test, so a field that is
present but falsy (empty string, the number 0, `false`, `null`) triggers the
same 400 response with no upstream call, exactly as an absent field does. -/
theorem translate_falsy_field_400 (chat : GroqRequest → Except String ChatCompletion)
    (req : TranslateBody)
    (h : (∃ v, req.text = some v ∧ truthy (some v) = false) ∨
         (∃ v, req.sourceLang = some v ∧ truthy (some v) = false) ∨
         (∃ v, req.targetLang = some v ∧ truthy (some v) = false)) :
    translateHandler chat req =
      ({ status := 400, body := JVal.obj [("error", JVal.str "Missing required fields")] },
       []) := by
  rcases h with ⟨v, hv, hf⟩ | ⟨v, hv, hf⟩ | ⟨v, hv, hf⟩ <;> simp [translateHandler, hv, hf]

/-- Witness for C10: an empty-string `text` and a zero `sourceLang` each get
the 400 response with no upstream call. -/
theorem translate_falsy_field_400_witness :
    truthy (some (JVal.str "")) = false ∧
    truthy (some (JVal.num 0)) = false ∧
    translateHandler (fun _ => Except.error "unreachable")
      { text := some (JVal.str ""), sourceLang := some (JVal.str "en-US"),
        targetLang := some (JVal.str "es") } =
      ({ status := 400, body := JVal.obj [("error", JVal.str "Missing required fields")] },
       []) ∧
    translateHandler (fun _ => Except.error "unreachable")
      { text := some (JVal.str "hello"), sourceLang := some (JVal.num 0),
        targetLang := some (JVal.str "es") } =
      ({ status := 400, body := JVal.obj [("error", JVal.str "Missing required fields")] },
       []) :=
  ⟨rfl, rfl,
   translate_falsy_field_400 _ _ (Or.inl ⟨JVal.str "", rfl, rfl⟩),
   translate_falsy_field_400 _ _ (Or.inr (Or.inl ⟨JVal.num 0, rfl, rfl⟩))⟩

/-- Claim C2: a translate request with all three fields truthy invokes the
upstream service exactly once, with model "llama-3.3-70b-versatile",
temperature 0.3 and exactly two messages: the system message naming the
resolved source and target language names and the user message carrying the
raw input text; codes outside the table resolve to themselves. -/
theorem translate_upstream_request_shape (chat : GroqRequest → Except String ChatCompletion)
    (req : TranslateBody)
    (ht : truthy req.text = true) (hs : truthy req.sourceLang = true)
    (htg : truthy req.targetLang = true) :
    (translateHandler chat req).2 =
      [{ messages :=
           [{ role := "system",
              content := JVal.str (systemPrompt (resolveLang (req.sourceLang.getD JVal.null))
                (resolveLang (req.targetLang.getD JVal.null))) },
            { role := "user", content := req.text.getD JVal.null }],
         model := "llama-3.3-70b-versatile",
         temperature := 3 / 10 }] ∧
    (∀ code : String, lookupLang code = none → resolveLang (JVal.str code) = code) := by
  refine ⟨?_, ?_⟩
  · rw [translateHandler_valid_eq chat req ht hs htg]
    cases chat (validGroqRequest req) <;> rfl
  · intro code hc
    simp [resolveLang, jvalToString, hc]

/-- Witness for C2: the unrecognized code "xx" passes through verbatim into
the system prompt, "es" resolves to "Spanish", and the upstream request is
exactly as described. -/
theorem translate_upstream_request_shape_witness :
    truthy sampleBody.text = true ∧
    truthy sampleBody.sourceLang = true ∧
    truthy sampleBody.targetLang = true ∧
    lookupLang "xx" = none ∧
    (translateHandler failingUpstream.chat sampleBody).2 =
      [{ messages :=
           [{ role := "system",
              content := JVal.str ("You are a professional medical translator. " ++
                "Translate from xx to Spanish. Return ONLY the translation.") },
            { role := "user", content := JVal.str "I have chest pain" }],
         model := "llama-3.3-70b-versatile",
         temperature := 3 / 10 }] :=
  ⟨rfl, rfl, rfl, rfl, by
    have h := (translate_upstream_request_shape failingUpstream.chat sampleBody rfl rfl rfl).1
    simpa [sampleBody, resolveLang, jvalToString, lookupLang, languageNames, systemPrompt] using h⟩

/-- Claim C3: when the upstream call succeeds, the JSON response echoes
`sourceLang`/`targetLang` exactly as received (not the resolved display
names), carries the upstream's `model` and `usage`, and the possibly-absent
`translatedText`. -/
theorem translate_success_response (comp : ChatCompletion) (req : TranslateBody)
    (ht : truthy req.text = true) (hs : truthy req.sourceLang = true)
    (htg : truthy req.targetLang = true) :
    ∃ sl tg, req.sourceLang = some sl ∧ req.targetLang = some tg ∧
      (translateHandler (fun _ => Except.ok comp) req).1 =
        { status := 200,
          body := translateOkBody (extractTranslatedText comp) sl tg comp.model comp.usage } ∧
      objGet (translateOkBody (extractTranslatedText comp) sl tg comp.model comp.usage)
        "sourceLang" = some sl ∧
      objGet (translateOkBody (extractTranslatedText comp) sl tg comp.model comp.usage)
        "targetLang" = some tg ∧
      objGet (translateOkBody (extractTranslatedText comp) sl tg comp.model comp.usage)
        "model" = some (JVal.str comp.model) ∧
      objGet (translateOkBody (extractTranslatedText comp) sl tg comp.model comp.usage)
        "usage" = some comp.usage ∧
      objGet (translateOkBody (extractTranslatedText comp) sl tg comp.model comp.usage)
        "translatedText" = (extractTranslatedText comp).map JVal.str := by
  refine ⟨req.sourceLang.getD JVal.null, req.targetLang.getD JVal.null,
    truthy_eq_some hs, truthy_eq_some htg, ?_,
    objGet_translateOkBody_sourceLang _ _ _ _ _,
    objGet_translateOkBody_targetLang _ _ _ _ _,
    objGet_translateOkBody_model _ _ _ _ _,
    objGet_translateOkBody_usage _ _ _ _ _,
    objGet_translateOkBody_translatedText _ _ _ _ _⟩
  rw [translateHandler_valid_eq _ req ht hs htg]

/-- Witness for C3: a concrete successful completion. -/
theorem translate_success_response_witness :
    truthy sampleBody.text = true ∧
    truthy sampleBody.sourceLang = true ∧
    truthy sampleBody.targetLang = true ∧
    (∃ sl tg, sampleBody.sourceLang = some sl ∧ sampleBody.targetLang = some tg ∧
      (translateHandler
          (fun _ => Except.ok
            { choices := [{ message := some { content := some " Tengo dolor " } }],
              model := "llama-3.3-70b-versatile-0", usage := JVal.obj [("total_tokens", JVal.num 42)] })
          sampleBody).1 =
        { status := 200,
          body := translateOkBody
            (extractTranslatedText
              { choices := [{ message := some { content := some " Tengo dolor " } }],
                model := "llama-3.3-70b-versatile-0", usage := JVal.obj [("total_tokens", JVal.num 42)] })
            sl tg "llama-3.3-70b-versatile-0" (JVal.obj [("total_tokens", JVal.num 42)]) } ∧
      objGet (translateOkBody
          (extractTranslatedText
            { choices := [{ message := some { content := some " Tengo dolor " } }],
              model := "llama-3.3-70b-versatile-0", usage := JVal.obj [("total_tokens", JVal.num 42)] })
          sl tg "llama-3.3-70b-versatile-0" (JVal.obj [("total_tokens", JVal.num 42)]))
        "sourceLang" = some sl ∧
      objGet (translateOkBody
          (extractTranslatedText
            { choices := [{ message := some { content := some " Tengo dolor " } }],
              model := "llama-3.3-70b-versatile-0", usage := JVal.obj [("total_tokens", JVal.num 42)] })
          sl tg "llama-3.3-70b-versatile-0" (JVal.obj [("total_tokens", JVal.num 42)]))
        "targetLang" = some tg ∧
      objGet (translateOkBody
          (extractTranslatedText
            { choices := [{ message := some { content := some " Tengo dolor " } }],
              model := "llama-3.3-70b-versatile-0", usage := JVal.obj [("total_tokens", JVal.num 42)] })
          sl tg "llama-3.3-70b-versatile-0" (JVal.obj [("total_tokens", JVal.num 42)]))
        "model" = some (JVal.str "llama-3.3-70b-versatile-0") ∧
      objGet (translateOkBody
          (extractTranslatedText
            { choices := [{ message := some { content := some " Tengo dolor " } }],
              model := "llama-3.3-70b-versatile-0", usage := JVal.obj [("total_tokens", JVal.num 42)] })
          sl tg "llama-3.3-70b-versatile-0" (JVal.obj [("total_tokens", JVal.num 42)]))
        "usage" = some (JVal.obj [("total_tokens", JVal.num 42)]) ∧
      objGet (translateOkBody
          (extractTranslatedText
            { choices := [{ message := some { content := some " Tengo dolor " } }],
              model := "llama-3.3-70b-versatile-0", usage := JVal.obj [("total_tokens", JVal.num 42)] })
          sl tg "llama-3.3-70b-versatile-0" (JVal.obj [("total_tokens", JVal.num 42)]))
        "translatedText" =
          (extractTranslatedText
            { choices := [{ message := some { content := some " Tengo dolor " } }],
              model := "llama-3.3-70b-versatile-0",
              usage := JVal.obj [("total_tokens", JVal.num 42)] }).map JVal.str) :=
  ⟨rfl, rfl, rfl, translate_success_response _ sampleBody rfl rfl rfl⟩

/-- Claim C4: when the upstream response shape has no first choice's message
content, `translatedText` is absent and the response is still a 200 success;
otherwise `translatedText` is the content with surrounding whitespace
trimmed. -/
theorem translate_result_shaping (comp : ChatCompletion) (req : TranslateBody)
    (ht : truthy req.text = true) (hs : truthy req.sourceLang = true)
    (htg : truthy req.targetLang = true) :
    ((comp.choices.head?.bind Choice.message).bind ChoiceMessage.content = none →
       (translateHandler (fun _ => Except.ok comp) req).1.status = 200 ∧
       objGet (translateHandler (fun _ => Except.ok comp) req).1.body "translatedText" =
         none) ∧
    (∀ s, (comp.choices.head?.bind Choice.message).bind ChoiceMessage.content = some s →
       (translateHandler (fun _ => Except.ok comp) req).1.status = 200 ∧
       objGet (translateHandler (fun _ => Except.ok comp) req).1.body "translatedText" =
         some (JVal.str (jsTrim s))) := by
  rw [translateHandler_valid_eq _ req ht hs htg]
  constructor
  · intro hnone
    refine ⟨rfl, ?_⟩
    show objGet (translateOkBody (extractTranslatedText comp) _ _ _ _) "translatedText" = none
    rw [objGet_translateOkBody_translatedText]
    simp [extractTranslatedText, hnone]
  · intro s hsome
    refine ⟨rfl, ?_⟩
    show objGet (translateOkBody (extractTranslatedText comp) _ _ _ _) "translatedText" =
      some (JVal.str (jsTrim s))
    rw [objGet_translateOkBody_translatedText]
    simp [extractTranslatedText, hsome]

/-- Witness for C4: an upstream response with an empty `choices` array still
yields a 200 whose body has no `translatedText`; one with content yields the
trimmed text. -/
theorem translate_result_shaping_witness :
    truthy sampleBody.text = true ∧
    (({ choices := [], model := "m", usage := JVal.null } :
        ChatCompletion).choices.head?.bind Choice.message).bind ChoiceMessage.content = none ∧
    ((translateHandler
        (fun _ => Except.ok { choices := [], model := "m", usage := JVal.null })
        sampleBody).1.status = 200 ∧
      objGet (translateHandler
        (fun _ => Except.ok { choices := [], model := "m", usage := JVal.null })
        sampleBody).1.body "translatedText" = none) ∧
    ((translateHandler
        (fun _ => Except.ok
          { choices := [{ message := some { content := some "  Tengo dolor  " } }],
            model := "m", usage := JVal.null })
        sampleBody).1.status = 200 ∧
      objGet (translateHandler
        (fun _ => Except.ok
          { choices := [{ message := some { content := some "  Tengo dolor  " } }],
            model := "m", usage := JVal.null })
        sampleBody).1.body "translatedText" = some (JVal.str "Tengo dolor")) :=
  ⟨rfl, rfl,
   (translate_result_shaping _ sampleBody rfl rfl rfl).1 rfl,
   by
     have h := (translate_result_shaping
       { choices := [{ message := some { content := some "  Tengo dolor  " } }],
         model := "m", usage := JVal.null } sampleBody rfl rfl rfl).2 "  Tengo dolor  " rfl
     simpa using h⟩

/-- Counterexample to C5 as stated: a thrown upstream error on
`/api/models` produces a 500 whose body has an `error` field but no
`details` field at all (the raw message lands in `error` instead). -/
theorem models_error_lacks_details :
    modelsHandler (Except.error "boom") =
      { status := 500, body := JVal.obj [("error", JVal.str "boom")] } ∧
    objGet (modelsHandler (Except.error "boom")).body "details" = none ∧
    objGet (modelsHandler (Except.error "boom")).body "error" = some (JVal.str "boom") :=
  ⟨rfl, rfl, rfl⟩

/-- Claim C5, amended: when the upstream call throws, both routes reply 500
with a JSON object carrying an `error` field; `/api/translate` additionally
carries the raw upstream message in a `details` field, while `/api/models`
carries the raw message in the `error` field itself and has no `details`
field. -/
theorem upstream_throw_500 (msg : String) (req : TranslateBody)
    (ht : truthy req.text = true) (hs : truthy req.sourceLang = true)
    (htg : truthy req.targetLang = true) :
    (translateHandler (fun _ => Except.error msg) req).1 =
      { status := 500,
        body := JVal.obj [("error", JVal.str "Translation failed"),
          ("details", JVal.str msg)] } ∧
    modelsHandler (Except.error msg) =
      { status := 500, body := JVal.obj [("error", JVal.str msg)] } ∧
    objGet (JVal.obj [("error", JVal.str "Translation failed"), ("details", JVal.str msg)])
      "details" = some (JVal.str msg) ∧
    objGet (JVal.obj [("error", JVal.str msg)]) "error" = some (JVal.str msg) ∧
    objGet (JVal.obj [("error", JVal.str msg)]) "details" = none := by
  refine ⟨?_, rfl, rfl, rfl, rfl⟩
  rw [translateHandler_valid_eq _ req ht hs htg]

/-- Witness for C5 (amended): a concrete thrown message "boom". -/
theorem upstream_throw_500_witness :
    truthy sampleBody.text = true ∧
    (translateHandler (fun _ => Except.error "boom") sampleBody).1 =
      { status := 500,
        body := JVal.obj [("error", JVal.str "Translation failed"),
          ("details", JVal.str "boom")] } ∧
    objGet (JVal.obj [("error", JVal.str "boom")]) "details" = none :=
  ⟨rfl, (upstream_throw_500 "boom" sampleBody rfl rfl rfl).1,
   (upstream_throw_500 "boom" sampleBody rfl rfl rfl).2.2.2.2⟩

/-- Claim C9: the fallback error middleware maps the CORS-gate error to a 403
with a CORS-specific message and every other error to a plain 500 whose body
carries only the fixed "Internal Server Error" message. -/
theorem fallback_error_middleware (msg : String) :
    (msg = "Not allowed by CORS" →
       errorMiddleware msg =
         { status := 403,
           body := JVal.obj [("error", JVal.str "CORS Error: Origin not allowed")] }) ∧
    (msg ≠ "Not allowed by CORS" →
       errorMiddleware msg =
         { status := 500,
           body := JVal.obj [("error", JVal.str "Internal Server Error")] }) := by
  constructor
  · intro h; subst h; rfl
  · intro h; simp [errorMiddleware, h]

/-- Witness for C9: the CORS error message and an arbitrary other message. -/
theorem fallback_error_middleware_witness :
    ("Not allowed by CORS" : String) = "Not allowed by CORS" ∧
    errorMiddleware "Not allowed by CORS" =
      { status := 403,
        body := JVal.obj [("error", JVal.str "CORS Error: Origin not allowed")] } ∧
    ("socket hang up" : String) ≠ "Not allowed by CORS" ∧
    errorMiddleware "socket hang up" =
      { status := 500, body := JVal.obj [("error", JVal.str "Internal Server Error")] } :=
  ⟨rfl, (fallback_error_middleware _).1 rfl, by decide,
   (fallback_error_middleware _).2 (by decide)⟩

/-- Counterexample to C6 as stated: the gate's `!origin` test is
truthiness, so the empty-string origin — which is neither absent nor contains
"localhost" or "127.0.0.1" — is allowed rather than denied. -/
theorem cors_gate_counterexample :
    corsOriginAllowed (some "") = true ∧
    (some "" : Option String) ≠ none ∧
    strIncludes "" "localhost" = false ∧
    strIncludes "" "127.0.0.1" = false :=
  ⟨rfl, by simp, rfl, rfl⟩

/-- Claim C6, amended: the gate allows a request iff the origin is absent or
empty, or contains the substring "localhost" or "127.0.0.1"; any other origin
is denied, and the denial short-circuits the pipeline: the fallback error
middleware answers 403 with the CORS message, no route handler runs (no
upstream call is made and the rate-limiter store is untouched). -/
theorem cors_gate_policy (origin : Option String) (up : Upstream)
    (groqApiKey : Option String) (st : RLState) (req : Request) :
    (corsOriginAllowed origin = true ↔
       origin = none ∨ origin = some "" ∨
         ∃ o, origin = some o ∧
           (strIncludes o "localhost" = true ∨ strIncludes o "127.0.0.1" = true)) ∧
    (corsOriginAllowed req.origin = false →
       handle up groqApiKey st req =
         { response :=
             { status := 403,
               body := JVal.obj [("error", JVal.str "CORS Error: Origin not allowed")] },
           chatCalls := [], modelsCalls := 0, state := st }) := by
  constructor
  · cases origin with
    | none => simp [corsOriginAllowed]
    | some o => simp [corsOriginAllowed, or_assoc]
  · intro h
    simp [handle, h, errorMiddleware]

/-- Witness for C6 (amended): a foreign origin is denied and its request is
answered by the error middleware without reaching any handler. -/
theorem cors_gate_policy_witness :
    corsOriginAllowed sampleForeignReq.origin = false ∧
    handle failingUpstream none RLState.empty sampleForeignReq =
      { response :=
          { status := 403,
            body := JVal.obj [("error", JVal.str "CORS Error: Origin not allowed")] },
        chatCalls := [], modelsCalls := 0, state := RLState.empty } :=
  ⟨by decide,
   (cors_gate_policy sampleForeignReq.origin failingUpstream none RLState.empty
     sampleForeignReq).2 (by decide)⟩

/-- Counterexample to C8 as stated: with the credential environment
variable set to the empty string — set, but falsy — the health route reports
`groqApiConfigured: false`, so the flag is not "true exactly when the
variable is set". -/
theorem health_flag_counterexample :
    (some "" : Option String) ≠ none ∧
    healthHandler (some "") =
      { status := 200,
        body := JVal.obj [("status", JVal.str "OK"),
          ("groqApiConfigured", JVal.bool false)] } :=
  ⟨by simp, rfl⟩

/-- Claim C8, amended: every health request succeeds with status 200 and body
`{status: "OK", groqApiConfigured}`, where the flag is true exactly when the
credential variable is set to a non-empty string (in particular false when it
is unset), and the health route never triggers an upstream call. -/
theorem health_route_contract (groqApiKey : Option String) (up : Upstream)
    (st : RLState) (req : Request) (hr : req.route = Route.health) :
    (healthHandler groqApiKey).status = 200 ∧
    objGet (healthHandler groqApiKey).body "status" = some (JVal.str "OK") ∧
    (objGet (healthHandler groqApiKey).body "groqApiConfigured" = some (JVal.bool true) ↔
       ∃ s, groqApiKey = some s ∧ s ≠ "") ∧
    (groqApiKey = none →
       objGet (healthHandler groqApiKey).body "groqApiConfigured" =
         some (JVal.bool false)) ∧
    (handle up groqApiKey st req).chatCalls = [] ∧
    (handle up groqApiKey st req).modelsCalls = 0 := by
  have hcalls : (handle up groqApiKey st req).chatCalls = [] ∧
      (handle up groqApiKey st req).modelsCalls = 0 := by
    cases hcors : corsOriginAllowed req.origin <;>
      cases hlim : (rateLimitStep st req.client req.time).1 <;>
        simp [handle, hcors, hlim, routeOutcome, hr]
  refine ⟨rfl, rfl, ?_, ?_, hcalls.1, hcalls.2⟩
  · cases groqApiKey with
    | none => simp [healthHandler, objGet, truthy]
    | some s =>
      by_cases hs : s = "" <;> simp [healthHandler, objGet, truthy, hs]
  · intro h
    subst h
    rfl

/-- Witness for C8 (amended): a health request with no credential configured,
through the full pipeline. -/
theorem health_route_contract_witness :
    sampleReq0.route = Route.health ∧
    (healthHandler none).status = 200 ∧
    objGet (healthHandler none).body "groqApiConfigured" = some (JVal.bool false) ∧
    (handle failingUpstream none RLState.empty sampleReq0).chatCalls = [] ∧
    (handle failingUpstream none RLState.empty sampleReq0).modelsCalls = 0 :=
  ⟨rfl,
   (health_route_contract none failingUpstream RLState.empty sampleReq0 rfl).1,
   (health_route_contract none failingUpstream RLState.empty sampleReq0 rfl).2.2.2.1 rfl,
   (health_route_contract none failingUpstream RLState.empty sampleReq0 rfl).2.2.2.2.1,
   (health_route_contract none failingUpstream RLState.empty sampleReq0 rfl).2.2.2.2.2⟩

/-- A request inside the current window increments the hit counter and is
allowed exactly while the incremented count stays within the ceiling. -/
theorem rateLimitStep_in_window (st : RLState) (c : String) (t0 m t : Nat)
    (hst : st c = some (t0, m)) (ht : t < t0 + windowMs) :
    rateLimitStep st c t =
      (decide (m + 1 ≤ maxRequests),
       fun c' => if c' == c then some (t0, m + 1) else st c') := by
  simp [rateLimitStep, hst, ht]

/-- Window invariant: starting from a store whose entry for client `c` is
`(t0, m)`, a run of requests all from `c`, all CORS-allowed and all timed
inside the window of `t0`, (a) answers the `i`-th request with its route
outcome while `m + i + 1` stays within the ceiling and with the fixed 429
rejection afterwards, (b) leaves the counter at `m + reqs.length`, and (c)
never touches another client's entry. -/
theorem runRequests_window_aux (up : Upstream) (k : Option String) (c : String) (t0 : Nat)
    (reqs : List Request) :
    ∀ (st : RLState) (m : Nat),
      st c = some (t0, m) →
      (∀ r ∈ reqs, r.client = c ∧ corsOriginAllowed r.origin = true ∧
        r.time < t0 + windowMs) →
      (∀ i : Nat,
        ((runRequests up k st reqs)[i]?).map Outcome.obs =
          (reqs[i]?).map (fun r =>
            if m + i + 1 ≤ maxRequests then
              ((routeOutcome up k r).1, (routeOutcome up k r).2.1, (routeOutcome up k r).2.2)
            else ({ status := 429, body := rateLimitMessage }, [], 0))) ∧
      runState up k st reqs c = some (t0, m + reqs.length) ∧
      (∀ c', c' ≠ c → runState up k st reqs c' = st c') := by
  induction reqs with
  | nil =>
    intro st m hst _
    exact ⟨fun i => by simp [runRequests, runState],
      by simpa [runState] using hst, fun c' _ => by simp [runState]⟩
  | cons r rs ih =>
    intro st m hst hreqs
    obtain ⟨hc, hcors, htime⟩ := hreqs r (List.mem_cons_self r rs)
    have hstep := rateLimitStep_in_window st c t0 m r.time hst htime
    set st1 : RLState := fun c' => if c' == c then some (t0, m + 1) else st c' with hst1def
    have hst1c : st1 c = some (t0, m + 1) := by simp [hst1def]
    have hhandle : handle up k st r =
        if m + 1 ≤ maxRequests then
          { response := (routeOutcome up k r).1, chatCalls := (routeOutcome up k r).2.1,
            modelsCalls := (routeOutcome up k r).2.2, state := st1 }
        else
          { response := { status := 429, body := rateLimitMessage },
            chatCalls := [], modelsCalls := 0, state := st1 } := by
      unfold handle
      rw [hcors, hc, hstep]
      by_cases hm : m + 1 ≤ maxRequests <;> simp [hm]
    have hstate : (handle up k st r).state = st1 := by
      rw [hhandle]
      by_cases hm : m + 1 ≤ maxRequests <;> simp [hm]
    obtain ⟨ih1, ih2, ih3⟩ :=
      ih st1 (m + 1) hst1c (fun r' hr' => hreqs r' (List.mem_cons_of_mem r hr'))
    refine ⟨?_, ?_, ?_⟩
    · intro i
      cases i with
      | zero =>
        have h0 : (runRequests up k st (r :: rs))[0]? = some (handle up k st r) := by
          simp [runRequests]
        rw [h0, hhandle]
        by_cases hm : m + 1 ≤ maxRequests <;> simp [hm, Outcome.obs]
      | succ i =>
        have hsucc : (runRequests up k st (r :: rs))[i + 1]? =
            (runRequests up k st1 rs)[i]? := by
          simp [runRequests, hstate]
        rw [hsucc, ih1 i]
        have harith : m + 1 + i + 1 = m + (i + 1) + 1 := by omega
        simp only [List.getElem?_cons_succ, harith]
    · have hcons : runState up k st (r :: rs) c = runState up k st1 rs c := by
        simp [runState, hstate]
      have hlen : m + 1 + rs.length = m + (rs.length + 1) := by omega
      simp [hcons, ih2, hlen]
    · intro c' hc'
      have hcons : runState up k st (r :: rs) c' = runState up k st1 rs c' := by
        simp [runState, hstate]
      rw [hcons, ih3 c' hc', hst1def]
      simp [hc']

/-- Claim C7: per client, of a run of requests to `/api/` all inside one
15-minute window, requests 1 through 100 are answered by their route handler,
while the 101st and every later one get the fixed
`{"error": "Too many requests, please try again later."}` body with status
429 and cause no upstream call; the limiter leaves other clients' counters
untouched, and once the window has elapsed the client is admitted again. -/
theorem rate_limiter_contract (up : Upstream) (k : Option String) (st0 : RLState)
    (c : String) (r0 : Request) (rest : List Request)
    (h0 : st0 c = none)
    (hc0 : r0.client = c) (hcors0 : corsOriginAllowed r0.origin = true)
    (hrest : ∀ r ∈ rest, r.client = c ∧ corsOriginAllowed r.origin = true ∧
      r.time < r0.time + windowMs) :
    (∀ i : Nat,
      ((runRequests up k st0 (r0 :: rest))[i]?).map Outcome.obs =
        ((r0 :: rest)[i]?).map (fun r =>
          if i + 1 ≤ maxRequests then
            ((routeOutcome up k r).1, (routeOutcome up k r).2.1, (routeOutcome up k r).2.2)
          else ({ status := 429, body := rateLimitMessage }, [], 0))) ∧
    (∀ c', c' ≠ c → runState up k st0 (r0 :: rest) c' = st0 c') ∧
    (∀ t : Nat, r0.time + windowMs ≤ t →
      (rateLimitStep (runState up k st0 (r0 :: rest)) c t).1 = true) := by
  have hstep0 : rateLimitStep st0 r0.client r0.time =
      (true, fun c' => if c' == c then some (r0.time, 1) else st0 c') := by
    rw [hc0]
    simp [rateLimitStep, h0]
  set st1 : RLState := fun c' => if c' == c then some (r0.time, 1) else st0 c' with hst1def
  have hst1c : st1 c = some (r0.time, 1) := by simp [hst1def]
  have hhandle0 : handle up k st0 r0 =
      { response := (routeOutcome up k r0).1, chatCalls := (routeOutcome up k r0).2.1,
        modelsCalls := (routeOutcome up k r0).2.2, state := st1 } := by
    unfold handle
    rw [hcors0, hstep0]
    simp
  obtain ⟨aux1, aux2, aux3⟩ :=
    runRequests_window_aux up k c r0.time rest st1 1 hst1c hrest
  refine ⟨?_, ?_, ?_⟩
  · intro i
    cases i with
    | zero =>
      have h0' : (runRequests up k st0 (r0 :: rest))[0]? = some (handle up k st0 r0) := by
        simp [runRequests]
      rw [h0', hhandle0]
      simp [Outcome.obs, maxRequests]
    | succ i =>
      have hsucc : (runRequests up k st0 (r0 :: rest))[i + 1]? =
          (runRequests up k st1 rest)[i]? := by
        simp [runRequests, hhandle0]
      rw [hsucc, aux1 i]
      have harith : 1 + i + 1 = i + 1 + 1 := by omega
      simp only [List.getElem?_cons_succ, harith]
  · intro c' hc'
    have hcons : runState up k st0 (r0 :: rest) c' = runState up k st1 rest c' := by
      simp [runState, hhandle0]
    rw [hcons, aux3 c' hc', hst1def]
    simp [hc']
  · intro t htw
    have hcons : runState up k st0 (r0 :: rest) c = runState up k st1 rest c := by
      simp [runState, hhandle0]
    have hnotlt : ¬ t < r0.time + windowMs := by omega
    simp [rateLimitStep, hcons, aux2, hnotlt]

/-- Witness for C7: one client (no origin header) issues 101 health requests
within a single window; the 100th is served by the route handler and the
101st receives the fixed 429 rejection with no upstream call. -/
theorem rate_limiter_contract_witness :
    RLState.empty sampleClient = none ∧
    sampleReq0.client = sampleClient ∧
    corsOriginAllowed sampleReq0.origin = true ∧
    sampleReq1.client = sampleClient ∧
    corsOriginAllowed sampleReq1.origin = true ∧
    sampleReq1.time < sampleReq0.time + windowMs ∧
    ((runRequests failingUpstream none RLState.empty
        (sampleReq0 :: List.replicate 100 sampleReq1))[99]?).map Outcome.obs =
      some (healthHandler none, [], 0) ∧
    ((runRequests failingUpstream none RLState.empty
        (sampleReq0 :: List.replicate 100 sampleReq1))[100]?).map Outcome.obs =
      some ({ status := 429, body := rateLimitMessage }, [], 0) := by
  have h := rate_limiter_contract failingUpstream none RLState.empty sampleClient
    sampleReq0 (List.replicate 100 sampleReq1) rfl rfl rfl
    (by
      intro r hr
      have he := List.eq_of_mem_replicate hr
      subst he
      exact ⟨rfl, rfl, by decide⟩)
  refine ⟨rfl, rfl, rfl, rfl, rfl, by decide, ?_, ?_⟩
  · rw [h.1 99]
    rfl
  · rw [h.1 100]
    rfl
